import Mathlib

/-!
Shallow embedding of the SigaNG slowdown system.

Sources:
* `src/include/SIGA/SlowMotion.h` — `SlowType`, `ActorSlowState`, the
  `SlowMotionManager` fields.
* `src/src/SlowMotion.cpp` — `ApplySlowdown`, `RemoveSlowdown`,
  `ClearAllSlowdowns`, `ClearAll`, `IsActorSlowed(Internal)`,
  `CalculateMagnitude`, `ApplySpellWithMagnitude`, `RemoveSpell`.
* `src/unnamed/part_000` — the `Config` defaults.
* `src/unnamed/part_001` — the animation event dispatcher (`OnBowDrawn`).

Modelling conventions:
* Machine floats carry only configuration multipliers and skill levels; every
  constant involved (25, 50, 75, the table entries) is exactly representable,
  so they are embedded as rationals.
* A C++ pointer that may be null becomes `Option`; a null `RE::Actor*` is
  `none`, and a live actor is identified by its `FormID` (a `Nat`).
* `std::unordered_map<FormID, ActorSlowState>` is embedded as the partial
  function `Nat → Option ActorSlowState` (the map's key-value semantics).
* The host engine (spell store, active magic effects, caster/target lookups)
  is an explicit `Engine` record; `CastSpellImmediate` adds an effect instance
  `(spellId, magnitude)` on the target, `DispelEffect` removes every instance
  of the given spell from the target.
-/

namespace SIGA

/-- The `SlowType` enum of `SlowMotion.h`. -/
inductive SlowType where
  | Bow
  | Crossbow
  | CastLeft
  | CastRight
  | DualCast
deriving DecidableEq

/-- The per-actor flag record `ActorSlowState` of `SlowMotion.h`
(all members initialised to `false`). -/
structure ActorSlowState where
  bowSlowActive : Bool := false
  castLeftActive : Bool := false
  castRightActive : Bool := false
  dualCastActive : Bool := false
deriving DecidableEq

/-- The boolean returned by `IsActorSlowedInternal` for a present entry:
`bowSlowActive || castLeftActive || castRightActive || dualCastActive`. -/
def ActorSlowState.anyActive (st : ActorSlowState) : Bool :=
  st.bowSlowActive || st.castLeftActive || st.castRightActive || st.dualCastActive

/-- A 4-entry multiplier array (`std::array<float, 4>` in `Config`). -/
structure MultTable where
  t0 : ℚ
  t1 : ℚ
  t2 : ℚ
  t3 : ℚ
deriving DecidableEq

/-- Indexing a multiplier array by tier. -/
def MultTable.get (t : MultTable) : Nat → ℚ
  | 0 => t.t0
  | 1 => t.t1
  | 2 => t.t2
  | _ => t.t3

/-- The `Config` fields the slowdown core reads (`src/unnamed/part_000`),
with the source's default values. -/
structure Config where
  enabled : Bool := true
  applyToNPCs : Bool := false
  applySlowdownCastingToNPCsOnly : Bool := false
  enableBowDebuff : Bool := true
  enableCrossbowDebuff : Bool := true
  enableCastDebuff : Bool := true
  enableDualCastDebuff : Bool := true
  bowMultipliers : MultTable := ⟨1/2, 3/5, 7/10, 4/5⟩
  crossbowMultipliers : MultTable := ⟨1/2, 3/5, 7/10, 4/5⟩
  castMultipliers : MultTable := ⟨1/2, 3/5, 7/10, 4/5⟩
  dualCastMultipliers : MultTable := ⟨2/5, 1/2, 3/5, 7/10⟩

/-- The source's default configuration. -/
def defaultConfig : Config := {}

/-- The host engine state visible to this plugin: the process-global spell
objects (each a list of effect magnitudes — `spell->effects`, first entry
mutated by `ApplySpellWithMagnitude`), the active magic-effect instances on
each actor, and whether the engine can resolve a caster / magic target /
actor for a given form id. -/
structure Engine where
  spells : Nat → List ℚ
  activeEffects : Nat → List (Nat × ℚ)
  hasCaster : Nat → Bool
  hasMagicTarget : Nat → Bool
  lookupActor : Nat → Bool

/-- The manager's persistent fields (`SlowMotion.h`): the actor-state map and
the four cached spell pointers (null when lookup failed at `Initialize`). -/
structure SlowMotionManager where
  actorStates : Nat → Option ActorSlowState
  bowDebuffSpell : Option Nat
  castingDebuffSpell : Option Nat
  dualCastDebuffSpell : Option Nat
  crossbowDebuffSpell : Option Nat

/-- `SlowMotionManager::IsActorSlowedInternal`. -/
def isActorSlowedInternal (states : Nat → Option ActorSlowState) (formID : Nat) : Bool :=
  match states formID with
  | none => false
  | some st => st.anyActive

/-- `SlowMotionManager::IsActorSlowed` (null actor returns `false`). -/
def isActorSlowed (mgr : SlowMotionManager) (actor : Option Nat) : Bool :=
  match actor with
  | none => false
  | some formID => isActorSlowedInternal mgr.actorStates formID

/-- The tier computation at the top of `CalculateMagnitude`:
`<= 25` tier 0, `<= 50` tier 1, `<= 75` tier 2, else tier 3. -/
def tierOf (skillLevel : ℚ) : Nat :=
  if skillLevel ≤ 25 then 0
  else if skillLevel ≤ 50 then 1
  else if skillLevel ≤ 75 then 2
  else 3

/-- The multiplier-table selection switch inside `CalculateMagnitude`. -/
def multiplierTable (cfg : Config) : SlowType → MultTable
  | .Bow => cfg.bowMultipliers
  | .Crossbow => cfg.crossbowMultipliers
  | .CastLeft => cfg.castMultipliers
  | .CastRight => cfg.castMultipliers
  | .DualCast => cfg.dualCastMultipliers

/-- `SlowMotionManager::CalculateMagnitude`: magnitude
`= 100 - multiplier * 100` for the tier-indexed table entry. -/
def calculateMagnitude (cfg : Config) (skillLevel : ℚ) (type : SlowType) : ℚ :=
  100 - (multiplierTable cfg type).get (tierOf skillLevel) * 100

/-- `SlowMotionManager::ApplySpellWithMagnitude`: overwrite the magnitude of
the spell object's first effect (when it has one), then, if a caster is
available, cast the spell on the actor (adding an effect instance carrying
the magnitude override). Null actor or null spell: no-op. -/
def setFirstMagnitude : List ℚ → ℚ → List ℚ
  | [], _ => []
  | _ :: rest, m => m :: rest

def applySpellWithMagnitude (eng : Engine) (actor : Option Nat) (spell : Option Nat)
    (magnitude : ℚ) : Engine :=
  match actor, spell with
  | some formID, some sp =>
    let eng1 := { eng with
      spells := Function.update eng.spells sp (setFirstMagnitude (eng.spells sp) magnitude) }
    if eng1.hasCaster formID then
      { eng1 with
        activeEffects := Function.update eng1.activeEffects formID
          ((sp, magnitude) :: eng1.activeEffects formID) }
    else eng1
  | _, _ => eng

/-- `SlowMotionManager::RemoveSpell`: if the actor has a magic target,
dispel every active effect instance of the given spell. Null actor or
null spell: no-op. -/
def removeSpell (eng : Engine) (actor : Option Nat) (spell : Option Nat) : Engine :=
  match actor, spell with
  | some formID, some sp =>
    if eng.hasMagicTarget formID then
      { eng with
        activeEffects := Function.update eng.activeEffects formID
          ((eng.activeEffects formID).filter (fun p => p.1 ≠ sp)) }
    else eng
  | _, _ => eng

/-- The spell the `switch` in `ApplySlowdown` selects for the requested
source; the switch has no `DualCast` case, so for that request
`spellToApply` stays null. -/
def requestSpell (mgr : SlowMotionManager) : SlowType → Option Nat
  | .Bow => mgr.bowDebuffSpell
  | .Crossbow => mgr.crossbowDebuffSpell
  | .CastLeft => mgr.castingDebuffSpell
  | .CastRight => mgr.castingDebuffSpell
  | .DualCast => none

/-- The flag mutations of the `switch` in `ApplySlowdown` (no `DualCast`
case: that request mutates no flag). -/
def applySetFlags (state : ActorSlowState) : SlowType → ActorSlowState
  | .Bow => { state with bowSlowActive := true }
  | .Crossbow => { state with bowSlowActive := true }
  | .CastLeft => { state with castLeftActive := true }
  | .CastRight => { state with castRightActive := true }
  | .DualCast => state

/-- `SlowMotionManager::ApplySlowdown`. Null actor: no-op. Otherwise
`try_emplace` the entry, run the flag/spell `switch`, detect dual casting
(both cast flags set: set the derived flag, switch spell and type to
DualCast), and — since the entry is mutated through a reference — commit the
flag changes even when the selected spell is null and the function returns
before casting. -/
def applySlowdown (cfg : Config) (mgr : SlowMotionManager) (eng : Engine)
    (actor : Option Nat) (type : SlowType) (skillLevel : ℚ) :
    SlowMotionManager × Engine :=
  match actor with
  | none => (mgr, eng)
  | some formID =>
    let state0 := (mgr.actorStates formID).getD {}
    let state1 := applySetFlags state0 type
    let isDual := state1.castLeftActive && state1.castRightActive
    let state2 := if isDual then { state1 with dualCastActive := true } else state1
    let spellToApply := if isDual then mgr.dualCastDebuffSpell else requestSpell mgr type
    let effectiveType := if isDual then SlowType.DualCast else type
    let mgr' := { mgr with
      actorStates := Function.update mgr.actorStates formID (some state2) }
    let eng' :=
      match spellToApply with
      | none => eng
      | some sp =>
        applySpellWithMagnitude eng (some formID) (some sp)
          (calculateMagnitude cfg skillLevel effectiveType)
    (mgr', eng')

/-- The flag mutations of the `switch` in `RemoveSlowdown`. -/
def removeClearFlags (state : ActorSlowState) : SlowType → ActorSlowState
  | .Bow => { state with bowSlowActive := false }
  | .Crossbow => { state with bowSlowActive := false }
  | .CastLeft => { state with castLeftActive := false }
  | .CastRight => { state with castRightActive := false }
  | .DualCast => { state with dualCastActive := false }

/-- `SlowMotionManager::RemoveSlowdown`. Null actor or untracked actor:
no-op. Otherwise clear the requested flag, clear `dualCastActive` unless both
cast flags remain, dispel spells according to the flags that are *still set*
(the source's `if (state.bowSlowActive) RemoveSpell(bow/crossbow)` block,
translated as written), and erase the entry when no flag remains. -/
def removeSlowdown (mgr : SlowMotionManager) (eng : Engine)
    (actor : Option Nat) (type : SlowType) : SlowMotionManager × Engine :=
  match actor with
  | none => (mgr, eng)
  | some formID =>
    match mgr.actorStates formID with
    | none => (mgr, eng)
    | some state =>
      let state1 := removeClearFlags state type
      let state2 :=
        if !state1.castLeftActive || !state1.castRightActive then
          { state1 with dualCastActive := false }
        else state1
      let eng1 :=
        if state2.bowSlowActive then
          removeSpell (removeSpell eng (some formID) mgr.bowDebuffSpell)
            (some formID) mgr.crossbowDebuffSpell
        else eng
      let eng2 :=
        if state2.dualCastActive then
          removeSpell eng1 (some formID) mgr.dualCastDebuffSpell
        else if state2.castLeftActive || state2.castRightActive then
          removeSpell eng1 (some formID) mgr.castingDebuffSpell
        else
          removeSpell (removeSpell eng1 (some formID) mgr.castingDebuffSpell)
            (some formID) mgr.dualCastDebuffSpell
      let states1 := Function.update mgr.actorStates formID (some state2)
      let states2 :=
        if isActorSlowedInternal states1 formID then states1
        else Function.update states1 formID none
      ({ mgr with actorStates := states2 }, eng2)

/-- The four `RemoveSpell` calls of `ClearAllSlowdowns` / `ClearAll`. -/
def dispelAllFour (mgr : SlowMotionManager) (eng : Engine) (formID : Nat) : Engine :=
  removeSpell
    (removeSpell
      (removeSpell
        (removeSpell eng (some formID) mgr.bowDebuffSpell)
        (some formID) mgr.crossbowDebuffSpell)
      (some formID) mgr.castingDebuffSpell)
    (some formID) mgr.dualCastDebuffSpell

/-- `SlowMotionManager::ClearAllSlowdowns`. Null actor or untracked actor:
no-op (the lookup fails before any dispel). Otherwise dispel all four debuff
spells and erase the entry. -/
def clearAllSlowdowns (mgr : SlowMotionManager) (eng : Engine)
    (actor : Option Nat) : SlowMotionManager × Engine :=
  match actor with
  | none => (mgr, eng)
  | some formID =>
    match mgr.actorStates formID with
    | none => (mgr, eng)
    | some _ =>
      ({ mgr with actorStates := Function.update mgr.actorStates formID none },
        dispelAllFour mgr eng formID)

/-- `SlowMotionManager::ClearAll`: for every tracked actor still resolvable
by the engine, dispel the four debuff spells, then clear the whole map. The
per-actor loop only touches that actor's effects, so it is embedded
pointwise. -/
def clearAll (mgr : SlowMotionManager) (eng : Engine) :
    SlowMotionManager × Engine :=
  ({ mgr with actorStates := fun _ => none },
    { eng with
      activeEffects := fun f =>
        if (mgr.actorStates f).isSome && eng.lookupActor f then
          (dispelAllFour mgr eng f).activeEffects f
        else eng.activeEffects f })

/-- The actor data `AnimationEventHandler::OnBowDrawn` reads from the engine:
identity, player-ness, archery skill, and whether the equipped object
resolves to a crossbow-type weapon (false when nothing resolves). -/
structure BowEventActor where
  formID : Nat
  isPlayer : Bool
  archerySkill : ℚ
  equippedCrossbow : Bool

/-- `AnimationEventHandler::OnBowDrawn` (`src/unnamed/part_001`): when
`applySlowdownCastingToNPCsOnly` is enabled, skip the player; otherwise skip
non-players unless `applyToNPCs`; pick Bow or Crossbow from the equipped
weapon; honour the per-source enable toggles; apply the slowdown at the
actor's archery skill. -/
def onBowDrawn (cfg : Config) (mgr : SlowMotionManager) (eng : Engine)
    (a : BowEventActor) : SlowMotionManager × Engine :=
  if cfg.applySlowdownCastingToNPCsOnly && a.isPlayer then (mgr, eng)
  else if !cfg.applySlowdownCastingToNPCsOnly && (!a.isPlayer && !cfg.applyToNPCs) then
    (mgr, eng)
  else
    let type := if a.equippedCrossbow then SlowType.Crossbow else SlowType.Bow
    if a.equippedCrossbow && !cfg.enableCrossbowDebuff then (mgr, eng)
    else if !a.equippedCrossbow && !cfg.enableBowDebuff then (mgr, eng)
    else applySlowdown cfg mgr eng (some a.formID) type a.archerySkill

/-- One call to a public operation of the manager. -/
inductive SlowOp where
  | apply : Option Nat → SlowType → ℚ → SlowOp
  | remove : Option Nat → SlowType → SlowOp
  | clearActor : Option Nat → SlowOp
  | clearEverything : SlowOp
deriving DecidableEq

/-- Interpret one public operation. -/
def runOp (cfg : Config) (s : SlowMotionManager × Engine) :
    SlowOp → SlowMotionManager × Engine
  | .apply a t k => applySlowdown cfg s.1 s.2 a t k
  | .remove a t => removeSlowdown s.1 s.2 a t
  | .clearActor a => clearAllSlowdowns s.1 s.2 a
  | .clearEverything => clearAll s.1 s.2

/-- Interpret a sequence of public operations, left to right. -/
def runOps (cfg : Config) (s : SlowMotionManager × Engine)
    (ops : List SlowOp) : SlowMotionManager × Engine :=
  ops.foldl (runOp cfg) s

/-- Modelled from the spec: the simulation speed attribute of §6 is read as
nominal 100 plus the actor's baseline delta from unrelated modifiers, and
each active debuff-effect instance of this system subtracts its magnitude.
(The attribute itself lives in the host engine, outside `src/`.) -/
def actorSpeed (baseDelta : ℚ) (eng : Engine) (formID : Nat) : ℚ :=
  100 + baseDelta - (((eng.activeEffects formID).map Prod.snd).sum)

/-- A manager as it stands after a fully successful `Initialize`: an empty
map and the four spell handles resolved (to the distinct spell object ids
1, 2, 3, 4). -/
def mgr0 : SlowMotionManager where
  actorStates := fun _ => none
  bowDebuffSpell := some 1
  castingDebuffSpell := some 2
  dualCastDebuffSpell := some 3
  crossbowDebuffSpell := some 4

/-- A manager after a completely failed `Initialize`: every handle null. -/
def mgrNull : SlowMotionManager where
  actorStates := fun _ => none
  bowDebuffSpell := none
  castingDebuffSpell := none
  dualCastDebuffSpell := none
  crossbowDebuffSpell := none

/-- A benign engine: every spell object has one effect (initial magnitude 0),
no active effects anywhere, and every actor resolvable with caster and magic
target available. -/
def eng0 : Engine where
  spells := fun _ => [0]
  activeEffects := fun _ => []
  hasCaster := fun _ => true
  hasMagicTarget := fun _ => true
  lookupActor := fun _ => true

/-! ## Concrete scenarios -/

/-- Episode for claim C1: actor 7 draws a bow at archery skill 30
(tier 1, bow multiplier 3/5, magnitude 40). -/
def c1AfterApply : SlowMotionManager × Engine :=
  applySlowdown defaultConfig mgr0 eng0 (some 7) SlowType.Bow 30

/-- Episode for claim C1, continued: the bow is released. -/
def c1AfterRemove : SlowMotionManager × Engine :=
  removeSlowdown c1AfterApply.1 c1AfterApply.2 (some 7) SlowType.Bow

/-- Episode for claim C3: actor 7 draws a bow at archery skill 30. -/
def c3AfterBow : SlowMotionManager × Engine :=
  applySlowdown defaultConfig mgr0 eng0 (some 7) SlowType.Bow 30

/-- Episode for claim C3, continued: the same actor begins a left-hand cast
at skill 30. -/
def c3AfterCastLeft : SlowMotionManager × Engine :=
  applySlowdown defaultConfig c3AfterBow.1 c3AfterBow.2 (some 7) SlowType.CastLeft 30

/-- Episode for claim C3, continued: the left-hand cast is released while the
bow stays drawn. -/
def c3AfterRelease : SlowMotionManager × Engine :=
  removeSlowdown c3AfterCastLeft.1 c3AfterCastLeft.2 (some 7) SlowType.CastLeft

/-- Episode for claim C5: actor 7 begins a left-hand cast at skill 30. -/
def c5AfterLeft : SlowMotionManager × Engine :=
  applySlowdown defaultConfig mgr0 eng0 (some 7) SlowType.CastLeft 30

/-- Episode for claim C5, continued: the right-hand cast begins, entering the
dual-cast state. -/
def c5AfterRight : SlowMotionManager × Engine :=
  applySlowdown defaultConfig c5AfterLeft.1 c5AfterLeft.2 (some 7) SlowType.CastRight 30

/-- Episode for claim C5, continued: `RemoveSlowdown(DualCast)` while both
hands are still held. -/
def c5AfterRemoveDual : SlowMotionManager × Engine :=
  removeSlowdown c5AfterRight.1 c5AfterRight.2 (some 7) SlowType.DualCast

/-- The default configuration with the casting-to-NPCs-only policy enabled. -/
def cfgCastingNPCsOnly : Config :=
  { defaultConfig with applySlowdownCastingToNPCsOnly := true }

/-- A player actor with a standard bow equipped and archery skill 60
(tier 2, bow multiplier 7/10, magnitude 30). -/
def playerArcher : BowEventActor := ⟨7, true, 60, false⟩

/-! ## Claims -/

/-- Claim C1 (code bug evaluation): after `ApplySlowdown(Bow)` followed by
`RemoveSlowdown(Bow)` the episode ends with zero active flags and the map
entry is erased, yet the bow debuff effect (magnitude 40) is still applied to
the actor — `RemoveSlowdown` dispels the bow/crossbow spells only when
`bowSlowActive` is still true — so the actor's absolute speed is
`100 + d - 40`, not the `100 + d` exact restore the claim requires. -/
theorem c1_bow_release_leaves_debuff_applied :
    c1AfterRemove.1.actorStates 7 = none
  ∧ c1AfterRemove.2.activeEffects 7 = [(1, 40)]
  ∧ (∀ d : ℚ, actorSpeed d c1AfterRemove.2 7 = 100 + d - 40)
  ∧ (∀ d : ℚ, actorSpeed d c1AfterRemove.2 7 ≠ 100 + d) := by
  have heff : c1AfterRemove.2.activeEffects 7 = [(1, 40)] := by
    norm_num [c1AfterRemove, c1AfterApply, applySlowdown, removeSlowdown,
      applySetFlags, removeClearFlags, requestSpell, applySpellWithMagnitude,
      removeSpell, setFirstMagnitude, mgr0, eng0, calculateMagnitude,
      multiplierTable, tierOf, defaultConfig, Function.update,
      isActorSlowedInternal, ActorSlowState.anyActive, MultTable.get]
  refine ⟨?_, heff, ?_, ?_⟩
  · norm_num [c1AfterRemove, c1AfterApply, applySlowdown, removeSlowdown,
      applySetFlags, removeClearFlags, requestSpell, applySpellWithMagnitude,
      removeSpell, setFirstMagnitude, mgr0, eng0, calculateMagnitude,
      multiplierTable, tierOf, defaultConfig, Function.update,
      isActorSlowedInternal, ActorSlowState.anyActive, MultTable.get]
  · intro d
    rw [actorSpeed, heff]
    norm_num
  · intro d
    rw [actorSpeed, heff]
    norm_num

/-- Claim C3 (code bug evaluation): with Bow and CastLeft both active,
`RemoveSlowdown(CastLeft)` keeps `bowSlowActive` (so the actor still counts
as slowed) but dispels the bow and crossbow debuffs (the dispel block fires
for flags that are still true) as well as the casting debuff, leaving no
active penalty: the speed is `100 + d` instead of the claimed Bow-only
computation `100 + d - CalculateMagnitude(archery skill, Bow)`. -/
theorem c3_partial_release_drops_bow_penalty :
    c3AfterRelease.1.actorStates 7
      = some { bowSlowActive := true, castLeftActive := false,
               castRightActive := false, dualCastActive := false }
  ∧ isActorSlowed c3AfterRelease.1 (some 7) = true
  ∧ c3AfterRelease.2.activeEffects 7 = []
  ∧ (∀ d : ℚ, actorSpeed d c3AfterRelease.2 7 = 100 + d)
  ∧ calculateMagnitude defaultConfig 30 SlowType.Bow = 40
  ∧ (∀ d : ℚ, actorSpeed d c3AfterRelease.2 7
        ≠ 100 + d - calculateMagnitude defaultConfig 30 SlowType.Bow) := by
  have heff : c3AfterRelease.2.activeEffects 7 = [] := by
    norm_num [c3AfterRelease, c3AfterCastLeft, c3AfterBow, applySlowdown,
      removeSlowdown, applySetFlags, removeClearFlags, requestSpell,
      applySpellWithMagnitude, removeSpell, setFirstMagnitude, mgr0, eng0,
      calculateMagnitude, multiplierTable, tierOf, defaultConfig,
      Function.update, isActorSlowedInternal, ActorSlowState.anyActive,
      MultTable.get]
  have hmag : calculateMagnitude defaultConfig 30 SlowType.Bow = 40 := by
    norm_num [calculateMagnitude, multiplierTable, tierOf, defaultConfig,
      MultTable.get]
  refine ⟨?_, ?_, heff, ?_, hmag, ?_⟩
  · norm_num [c3AfterRelease, c3AfterCastLeft, c3AfterBow, applySlowdown,
      removeSlowdown, applySetFlags, removeClearFlags, requestSpell,
      applySpellWithMagnitude, removeSpell, setFirstMagnitude, mgr0, eng0,
      calculateMagnitude, multiplierTable, tierOf, defaultConfig,
      Function.update, isActorSlowedInternal, ActorSlowState.anyActive,
      MultTable.get]
  · norm_num [c3AfterRelease, c3AfterCastLeft, c3AfterBow, applySlowdown,
      removeSlowdown, applySetFlags, removeClearFlags, requestSpell,
      applySpellWithMagnitude, removeSpell, setFirstMagnitude, mgr0, eng0,
      calculateMagnitude, multiplierTable, tierOf, defaultConfig,
      Function.update, isActorSlowedInternal, isActorSlowed,
      ActorSlowState.anyActive, MultTable.get]
  · intro d
    rw [actorSpeed, heff]
    norm_num
  · intro d
    rw [actorSpeed, heff, hmag]
    intro hcontra
    simp only [List.map_nil, List.sum_nil, sub_zero] at hcontra
    linarith

/-- Claim C4 (code bug evaluation): `OnBowDrawn` checks
`applySlowdownCastingToNPCsOnly` and skips the player when it is enabled, so
a player bow draw that passes every other gate produces no state change and
no effect — even though the flag is documented as restricting only the
casting slowdown. With the flag off, the identical event does apply the bow
slowdown (entry created, bow effect of magnitude 30 applied). -/
theorem c4_casting_flag_gates_player_bow :
    onBowDrawn cfgCastingNPCsOnly mgr0 eng0 playerArcher = (mgr0, eng0)
  ∧ (onBowDrawn cfgCastingNPCsOnly mgr0 eng0 playerArcher).1.actorStates 7 = none
  ∧ (onBowDrawn defaultConfig mgr0 eng0 playerArcher).1.actorStates 7
      = some { bowSlowActive := true, castLeftActive := false,
               castRightActive := false, dualCastActive := false }
  ∧ (onBowDrawn defaultConfig mgr0 eng0 playerArcher).2.activeEffects 7
      = [(1, 30)] := by
  refine ⟨rfl, rfl, ?_, ?_⟩
  · norm_num [onBowDrawn, playerArcher, applySlowdown, applySetFlags,
      requestSpell, applySpellWithMagnitude, setFirstMagnitude, mgr0, eng0,
      calculateMagnitude, multiplierTable, tierOf, defaultConfig,
      Function.update, MultTable.get]
  · norm_num [onBowDrawn, playerArcher, applySlowdown, applySetFlags,
      requestSpell, applySpellWithMagnitude, setFirstMagnitude, mgr0, eng0,
      calculateMagnitude, multiplierTable, tierOf, defaultConfig,
      Function.update, MultTable.get]

/-! ## Map-membership invariant -/

/-- Every entry present in the actor-state map has at least one flag set. -/
def GoodMgr (mgr : SlowMotionManager) : Prop :=
  ∀ fid st, mgr.actorStates fid = some st → st.anyActive = true

lemma goodMgr_applySlowdown {mgr : SlowMotionManager} (h : GoodMgr mgr)
    (cfg : Config) (eng : Engine) (a : Option Nat) {t : SlowType}
    (ht : t ≠ SlowType.DualCast) (k : ℚ) :
    GoodMgr (applySlowdown cfg mgr eng a t k).1 := by
  cases a with
  | none => exact h
  | some fid =>
    intro fid' st' h'
    simp only [applySlowdown] at h'
    rcases eq_or_ne fid' fid with rfl | hf
    · rw [Function.update_same] at h'
      obtain rfl := Option.some.inj h'
      cases t with
      | DualCast => exact absurd rfl ht
      | Bow => dsimp [applySetFlags]; split <;> simp [ActorSlowState.anyActive]
      | Crossbow => dsimp [applySetFlags]; split <;> simp [ActorSlowState.anyActive]
      | CastLeft => dsimp [applySetFlags]; split <;> simp [ActorSlowState.anyActive]
      | CastRight => dsimp [applySetFlags]; split <;> simp [ActorSlowState.anyActive]
    · rw [Function.update_noteq hf] at h'
      exact h fid' st' h'

lemma goodMgr_removeSlowdown {mgr : SlowMotionManager} (h : GoodMgr mgr)
    (eng : Engine) (a : Option Nat) (t : SlowType) :
    GoodMgr (removeSlowdown mgr eng a t).1 := by
  cases a with
  | none => exact h
  | some fid =>
    cases h0 : mgr.actorStates fid with
    | none => simpa [removeSlowdown, h0] using h
    | some st =>
      intro fid' st' h'
      simp only [removeSlowdown, h0] at h'
      rcases eq_or_ne fid' fid with rfl | hf
      · split at h'
        · split at h'
          · rename_i hslow
            rw [Function.update_same] at h'
            obtain rfl := Option.some.inj h'
            simpa [isActorSlowedInternal, Function.update_same] using hslow
          · rw [Function.update_same] at h'
            exact absurd h' (by simp)
        · split at h'
          · rename_i hslow
            rw [Function.update_same] at h'
            obtain rfl := Option.some.inj h'
            simpa [isActorSlowedInternal, Function.update_same] using hslow
          · rw [Function.update_same] at h'
            exact absurd h' (by simp)
      · split at h' <;> split at h'
        · rw [Function.update_noteq hf] at h'
          exact h fid' st' h'
        · rw [Function.update_noteq hf, Function.update_noteq hf] at h'
          exact h fid' st' h'
        · rw [Function.update_noteq hf] at h'
          exact h fid' st' h'
        · rw [Function.update_noteq hf, Function.update_noteq hf] at h'
          exact h fid' st' h'

lemma goodMgr_clearAllSlowdowns {mgr : SlowMotionManager} (h : GoodMgr mgr)
    (eng : Engine) (a : Option Nat) :
    GoodMgr (clearAllSlowdowns mgr eng a).1 := by
  cases a with
  | none => exact h
  | some fid =>
    cases h0 : mgr.actorStates fid with
    | none => simpa [clearAllSlowdowns, h0] using h
    | some st =>
      intro fid' st' h'
      simp only [clearAllSlowdowns, h0] at h'
      rcases eq_or_ne fid' fid with rfl | hf
      · rw [Function.update_same] at h'
        exact absurd h' (by simp)
      · rw [Function.update_noteq hf] at h'
        exact h fid' st' h'

lemma goodMgr_clearAll {mgr : SlowMotionManager} (_h : GoodMgr mgr)
    (eng : Engine) : GoodMgr (clearAll mgr eng).1 := by
  intro fid st h'
  simp [clearAll] at h'

/-- A public operation whose apply calls never request the `DualCast`
source (the event dispatcher in the repository only ever applies
Bow/Crossbow/CastLeft/CastRight). -/
def noDualApply : SlowOp → Prop
  | .apply _ t _ => t ≠ SlowType.DualCast
  | _ => True

/-- Claim C2, amended: after any sequence of public operations in which
`ApplySlowdown` is never called with the `DualCast` source, every entry
present in the actor-state map has at least one of the four flags set
(an `ApplySlowdown(DualCast)` call can leave an all-false entry — see the
counterexample). -/
theorem c2_map_entry_has_flag (cfg : Config) (ops : List SlowOp)
    (s : SlowMotionManager × Engine) (hs : GoodMgr s.1)
    (hops : ∀ op ∈ ops, noDualApply op) :
    GoodMgr (runOps cfg s ops).1 := by
  induction ops generalizing s with
  | nil => exact hs
  | cons op rest ih =>
    have hstep : GoodMgr (runOp cfg s op).1 := by
      have hop := hops op (List.mem_cons_self op rest)
      cases op with
      | apply a t k => exact goodMgr_applySlowdown hs cfg s.2 a hop k
      | remove a t => exact goodMgr_removeSlowdown hs s.2 a t
      | clearActor a => exact goodMgr_clearAllSlowdowns hs s.2 a
      | clearEverything => exact goodMgr_clearAll hs s.2

    exact ih (runOp cfg s op) hstep fun op' hop' =>
      hops op' (List.mem_cons_of_mem op hop')

/-- Claim C2, counterexample: a single public call
`ApplySlowdown(actor 1, DualCast, 30)` on a freshly initialised manager
leaves an entry in the map whose four flags are all false, refuting the
entry-iff-some-flag invariant as stated over all public operations. -/
theorem c2_dualcast_apply_creates_flagless_entry :
    (runOps defaultConfig (mgr0, eng0)
        [SlowOp.apply (some 1) SlowType.DualCast 30]).1.actorStates 1
      = some { bowSlowActive := false, castLeftActive := false,
               castRightActive := false, dualCastActive := false }
  ∧ (ActorSlowState.mk false false false false).anyActive = false := by
  constructor
  · norm_num [runOps, runOp, applySlowdown, applySetFlags, requestSpell,
      mgr0, eng0, Function.update]
  · rfl

/-- Witness for `c2_map_entry_has_flag`: a concrete two-operation run from
the freshly initialised manager. -/
theorem c2_map_entry_has_flag_witness :
    GoodMgr mgr0
  ∧ (∀ op ∈ [SlowOp.apply (some 1) SlowType.Bow 30,
             SlowOp.remove (some 1) SlowType.Bow], noDualApply op)
  ∧ GoodMgr (runOps defaultConfig (mgr0, eng0)
      [SlowOp.apply (some 1) SlowType.Bow 30,
       SlowOp.remove (some 1) SlowType.Bow]).1 := by
  have h1 : GoodMgr mgr0 := fun fid st h => Option.noConfusion h
  have h2 : ∀ op ∈ [SlowOp.apply (some 1) SlowType.Bow 30,
      SlowOp.remove (some 1) SlowType.Bow], noDualApply op := by
    intro op hop
    simp only [List.mem_cons, List.not_mem_nil, or_false] at hop
    rcases hop with rfl | rfl <;> simp [noDualApply]
  exact ⟨h1, h2, c2_map_entry_has_flag defaultConfig _ (mgr0, eng0) h1 h2⟩

/-! ## Dual-cast re-derivation on removal -/

/-- Claim C5, counterexample: with both hands casting (reachable by applying
CastLeft then CastRight), `RemoveSlowdown(DualCast)` leaves an entry whose
cast flags are both true while `dualCastActive` is false — the re-derivation
step never re-sets the derived flag, so it does not equal
`castLeftActive ∧ castRightActive`. -/
theorem c5_remove_dualcast_keeps_stale_flags :
    c5AfterRemoveDual.1.actorStates 7
      = some { bowSlowActive := false, castLeftActive := true,
               castRightActive := true, dualCastActive := false }
  ∧ ¬((ActorSlowState.mk false true true false).dualCastActive
       = ((ActorSlowState.mk false true true false).castLeftActive &&
          (ActorSlowState.mk false true true false).castRightActive)) := by
  constructor
  · norm_num [c5AfterRemoveDual, c5AfterRight, c5AfterLeft, applySlowdown,
      removeSlowdown, applySetFlags, removeClearFlags, requestSpell,
      applySpellWithMagnitude, removeSpell, setFirstMagnitude, mgr0, eng0,
      calculateMagnitude, multiplierTable, tierOf, defaultConfig,
      Function.update, isActorSlowedInternal, ActorSlowState.anyActive,
      MultTable.get]
  · decide

/-- Claim C5, amended: after `RemoveSlowdown` the touched entry's
`dualCastActive` flag implies both cast flags (the re-derivation clears the
derived flag whenever a cast flag is missing), and removal of the `DualCast`
source always leaves the derived flag false — the re-derivation step only
ever clears, it does not recompute the flag upward from the two cast
flags. -/
theorem c5_remove_rederives_downward_only (mgr : SlowMotionManager)
    (eng : Engine) (fid : Nat) (t : SlowType) (st' : ActorSlowState)
    (h : (removeSlowdown mgr eng (some fid) t).1.actorStates fid = some st') :
    (st'.dualCastActive = true →
      st'.castLeftActive = true ∧ st'.castRightActive = true)
  ∧ (t = SlowType.DualCast → st'.dualCastActive = false) := by
  cases h0 : mgr.actorStates fid with
  | none =>
    simp only [removeSlowdown, h0] at h
    exact Option.noConfusion h
  | some st =>
    simp only [removeSlowdown, h0] at h
    split at h
    · split at h
      · rw [Function.update_same] at h
        obtain rfl := Option.some.inj h
        constructor
        · intro hd
          exact absurd hd (by simp)
        · intro _
          simp
      · rw [Function.update_same] at h
        exact Option.noConfusion h
    · rename_i hcond
      split at h
      · rw [Function.update_same] at h
        obtain rfl := Option.some.inj h
        simp only [Bool.or_eq_true, Bool.not_eq_true', not_or,
          Bool.not_eq_false] at hcond
        constructor
        · intro _
          exact ⟨hcond.1, hcond.2⟩
        · intro ht
          subst ht
          simp [removeClearFlags]
      · rw [Function.update_same] at h
        exact Option.noConfusion h

/-- A manager holding one tracked actor (form id 7) in the both-hands-plus-
derived-flag state, used to witness the amended C5 theorem. -/
def mgrC5w : SlowMotionManager :=
  { mgr0 with
    actorStates := (Function.update (fun _ => none) 7 (some ⟨false, true, true, true⟩)) }

/-- Witness for `c5_remove_rederives_downward_only` at a concrete input. -/
theorem c5_remove_rederives_downward_only_witness :
    (removeSlowdown mgrC5w eng0 (some 7) SlowType.DualCast).1.actorStates 7
      = some ⟨false, true, true, false⟩
  ∧ ((ActorSlowState.mk false true true false).dualCastActive = true →
      (ActorSlowState.mk false true true false).castLeftActive = true ∧
      (ActorSlowState.mk false true true false).castRightActive = true)
  ∧ (SlowType.DualCast = SlowType.DualCast →
      (ActorSlowState.mk false true true false).dualCastActive = false) := by
  have hmap : (removeSlowdown mgrC5w eng0 (some 7) SlowType.DualCast).1.actorStates 7
      = some ⟨false, true, true, false⟩ := by
    norm_num [removeSlowdown, removeClearFlags, mgrC5w, mgr0, eng0, removeSpell,
      Function.update, isActorSlowedInternal, ActorSlowState.anyActive]
  obtain ⟨ha, hb⟩ :=
    c5_remove_rederives_downward_only mgrC5w eng0 7 SlowType.DualCast _ hmap
  exact ⟨hmap, ha, hb⟩

/-! ## Tier bucketing -/

/-- Claim C7: `CalculateMagnitude` buckets the skill level by the inclusive
thresholds 25 / 50 / 75; the boundary inputs 25, 25.1, 50, 75, 75.1, 100 land
in tiers 0, 1, 1, 2, 3, 3; the tier function is total into the four tiers and
deterministic, and for every source the magnitude is read from that source's
table at the computed tier. -/
theorem c7_tier_bucketing (cfg : Config) (t : SlowType) :
    tierOf 25 = 0
  ∧ tierOf (251/10 : ℚ) = 1
  ∧ tierOf 50 = 1
  ∧ tierOf 75 = 2
  ∧ tierOf (751/10 : ℚ) = 3
  ∧ tierOf 100 = 3
  ∧ (∀ s : ℚ, tierOf s ≤ 3)
  ∧ (∀ s : ℚ, calculateMagnitude cfg s t
      = 100 - (multiplierTable cfg t).get (tierOf s) * 100) := by
  refine ⟨by norm_num [tierOf], by norm_num [tierOf], by norm_num [tierOf],
    by norm_num [tierOf], by norm_num [tierOf], by norm_num [tierOf],
    ?_, fun s => rfl⟩
  intro s
  unfold tierOf
  split_ifs <;> norm_num

/-! ## No-op failure semantics -/

/-- Claim C8: a null actor makes `ApplySlowdown`, `RemoveSlowdown` and
`ClearAllSlowdowns` exact no-ops (manager and engine unchanged, nothing cast
or dispelled) and `IsActorSlowed` returns false; `RemoveSlowdown` and
`ClearAllSlowdowns` on an untracked actor are exact no-ops; after a
`ClearAllSlowdowns` the actor has no entry, so a second immediate
`ClearAllSlowdowns` is a no-op that leaves the map without an entry for the
actor. -/
theorem c8_noop_failure_semantics (cfg : Config) (mgr : SlowMotionManager)
    (eng : Engine) (t : SlowType) (k : ℚ) (fid : Nat) :
    applySlowdown cfg mgr eng none t k = (mgr, eng)
  ∧ removeSlowdown mgr eng none t = (mgr, eng)
  ∧ clearAllSlowdowns mgr eng none = (mgr, eng)
  ∧ isActorSlowed mgr none = false
  ∧ (mgr.actorStates fid = none →
      removeSlowdown mgr eng (some fid) t = (mgr, eng)
    ∧ clearAllSlowdowns mgr eng (some fid) = (mgr, eng))
  ∧ (clearAllSlowdowns mgr eng (some fid)).1.actorStates fid = none
  ∧ clearAllSlowdowns (clearAllSlowdowns mgr eng (some fid)).1
      (clearAllSlowdowns mgr eng (some fid)).2 (some fid)
      = clearAllSlowdowns mgr eng (some fid) := by
  refine ⟨rfl, rfl, rfl, rfl, ?_, ?_, ?_⟩
  · intro h
    exact ⟨by simp [removeSlowdown, h], by simp [clearAllSlowdowns, h]⟩
  · cases h0 : mgr.actorStates fid with
    | none => simp [clearAllSlowdowns, h0]
    | some st => simp [clearAllSlowdowns, h0, Function.update_same]
  · cases h0 : mgr.actorStates fid with
    | none => simp [clearAllSlowdowns, h0]
    | some st =>
      have hinner : clearAllSlowdowns mgr eng (some fid)
          = ({ mgr with actorStates := Function.update mgr.actorStates fid none },
             dispelAllFour mgr eng fid) := by
        simp [clearAllSlowdowns, h0]
      rw [hinner]
      simp [clearAllSlowdowns, Function.update_same]

/-- Witness for `c8_noop_failure_semantics` at a concrete input. -/
theorem c8_noop_failure_semantics_witness :
    mgr0.actorStates 5 = none
  ∧ removeSlowdown mgr0 eng0 (some 5) SlowType.Bow = (mgr0, eng0)
  ∧ clearAllSlowdowns mgr0 eng0 (some 5) = (mgr0, eng0) := by
  have h := (c8_noop_failure_semantics defaultConfig mgr0 eng0
    SlowType.Bow 0 5).2.2.2.2.1 rfl
  exact ⟨rfl, h.1, h.2⟩

/-! ## Null spell handles -/

/-- The flag of the entry corresponding to a requested source. -/
def sourceFlag : SlowType → ActorSlowState → Bool
  | .Bow, st => st.bowSlowActive
  | .Crossbow, st => st.bowSlowActive
  | .CastLeft, st => st.castLeftActive
  | .CastRight, st => st.castRightActive
  | .DualCast, st => st.dualCastActive

/-- A manager after a partial `Initialize` failure: the casting debuff handle
is null but the dual-cast (and ranged) handles resolved. -/
def mgrPartialInit : SlowMotionManager where
  actorStates := fun _ => none
  bowDebuffSpell := some 1
  castingDebuffSpell := none
  dualCastDebuffSpell := some 3
  crossbowDebuffSpell := some 4

/-- Scenario for claim C9's counterexample: actor 7 begins a left-hand cast
at skill 30 under `mgrPartialInit` (flag set, no effect: the casting handle
is null). -/
def c9AfterLeft : SlowMotionManager × Engine :=
  applySlowdown defaultConfig mgrPartialInit eng0 (some 7) SlowType.CastLeft 30

/-- Scenario for claim C9's counterexample, continued: the same actor begins
a right-hand cast at skill 30 — the requested source's handle is still null,
but the dual-cast promotion selects the resolved dual-cast spell. -/
def c9AfterRight : SlowMotionManager × Engine :=
  applySlowdown defaultConfig c9AfterLeft.1 c9AfterLeft.2 (some 7) SlowType.CastRight 30

/-- Claim C9, counterexample: with the casting debuff handle null but the
dual-cast handle resolved, the first cast sets its flag and applies nothing
(the claim's behavior), yet the second cast — whose requested source's
handle is likewise null — is promoted to DualCast by the dual check and
*does* apply the dual-cast effect (magnitude 50 at skill 30), refuting
`returns without applying any effect` as stated over all null-handle
requests. -/
theorem c9_promoted_dualcast_applies_effect :
    requestSpell c9AfterLeft.1 SlowType.CastRight = none
  ∧ c9AfterLeft.2.activeEffects 7 = []
  ∧ c9AfterRight.2.activeEffects 7 = [(3, 50)]
  ∧ c9AfterRight.1.actorStates 7
      = some { bowSlowActive := false, castLeftActive := true,
               castRightActive := true, dualCastActive := true } := by
  refine ⟨rfl, rfl, ?_, ?_⟩
  · norm_num [c9AfterRight, c9AfterLeft, applySlowdown, applySetFlags,
      requestSpell, applySpellWithMagnitude, setFirstMagnitude,
      mgrPartialInit, eng0, calculateMagnitude, multiplierTable, tierOf,
      defaultConfig, Function.update, MultTable.get]
  · norm_num [c9AfterRight, c9AfterLeft, applySlowdown, applySetFlags,
      requestSpell, applySpellWithMagnitude, setFirstMagnitude,
      mgrPartialInit, eng0, calculateMagnitude, multiplierTable, tierOf,
      defaultConfig, Function.update, MultTable.get]

/-- Claim C9, amended: when the debuff spell handle for the requested source
is null *and* the dual-cast handle is also unresolved (so the dual-cast
promotion cannot substitute a live spell), `ApplySlowdown` still creates or
keeps the actor's map entry with the source flag set before returning,
applies no effect (the engine is untouched), and `IsActorSlowed`
subsequently reports the actor as slowed. -/
theorem c9_null_spell_apply_still_flags (cfg : Config)
    (mgr : SlowMotionManager) (eng : Engine) (fid : Nat) (k : ℚ)
    (t : SlowType) (ht : t ≠ SlowType.DualCast)
    (hreq : requestSpell mgr t = none)
    (hdual : mgr.dualCastDebuffSpell = none) :
    (applySlowdown cfg mgr eng (some fid) t k).2 = eng
  ∧ isActorSlowed (applySlowdown cfg mgr eng (some fid) t k).1 (some fid) = true
  ∧ ∃ st, (applySlowdown cfg mgr eng (some fid) t k).1.actorStates fid = some st
        ∧ sourceFlag t st = true := by
  have hmap : (applySlowdown cfg mgr eng (some fid) t k).1.actorStates fid
      = some (if (applySetFlags ((mgr.actorStates fid).getD {}) t).castLeftActive &&
                 (applySetFlags ((mgr.actorStates fid).getD {}) t).castRightActive
              then { applySetFlags ((mgr.actorStates fid).getD {}) t with
                     dualCastActive := true }
              else applySetFlags ((mgr.actorStates fid).getD {}) t) := by
    simp [applySlowdown, Function.update_same]
  refine ⟨?_, ?_, ?_⟩
  · simp [applySlowdown, hreq, hdual]
  · rw [isActorSlowed, isActorSlowedInternal, hmap]
    cases t with
    | DualCast => exact absurd rfl ht
    | Bow => dsimp [applySetFlags]; split <;> simp [ActorSlowState.anyActive]
    | Crossbow => dsimp [applySetFlags]; split <;> simp [ActorSlowState.anyActive]
    | CastLeft => dsimp [applySetFlags]; split <;> simp [ActorSlowState.anyActive]
    | CastRight => dsimp [applySetFlags]; split <;> simp [ActorSlowState.anyActive]
  · refine ⟨_, hmap, ?_⟩
    cases t with
    | DualCast => exact absurd rfl ht
    | Bow => dsimp [applySetFlags]; split <;> simp [sourceFlag]
    | Crossbow => dsimp [applySetFlags]; split <;> simp [sourceFlag]
    | CastLeft => dsimp [applySetFlags]; split <;> simp [sourceFlag]
    | CastRight => dsimp [applySetFlags]; split <;> simp [sourceFlag]

/-- Witness for `c9_null_spell_apply_still_flags`: a manager whose
`Initialize` failed entirely (all four handles null). -/
theorem c9_null_spell_apply_still_flags_witness :
    (SlowType.Bow ≠ SlowType.DualCast
     ∧ requestSpell mgrNull SlowType.Bow = none
     ∧ mgrNull.dualCastDebuffSpell = none)
  ∧ ((applySlowdown defaultConfig mgrNull eng0 (some 9) SlowType.Bow 10).2 = eng0
     ∧ isActorSlowed (applySlowdown defaultConfig mgrNull eng0
          (some 9) SlowType.Bow 10).1 (some 9) = true
     ∧ ∃ st, (applySlowdown defaultConfig mgrNull eng0
          (some 9) SlowType.Bow 10).1.actorStates 9 = some st
        ∧ sourceFlag SlowType.Bow st = true) :=
  ⟨⟨by decide, rfl, rfl⟩,
   c9_null_spell_apply_still_flags defaultConfig mgrNull eng0 9 10
     SlowType.Bow (by decide) rfl rfl⟩

/-! ## Dual-cast symmetry -/

/-- Claim C6: for a fresh actor, applying CastLeft then CastRight — or the
two in the reverse order — yields an entry with `dualCastActive = true`, and
the effect cast by the second apply is the dual-cast debuff with a magnitude
computed for the `DualCast` source, i.e. from the dual-cast multiplier table
(not from the single-hand cast table). -/
theorem c6_dualcast_symmetry (cfg : Config) (mgr : SlowMotionManager)
    (eng : Engine) (fid ds : Nat) (k k' : ℚ)
    (hfresh : mgr.actorStates fid = none)
    (hdual : mgr.dualCastDebuffSpell = some ds)
    (hcaster : eng.hasCaster fid = true) :
    ((applySlowdown cfg (applySlowdown cfg mgr eng (some fid) SlowType.CastLeft k).1
        (applySlowdown cfg mgr eng (some fid) SlowType.CastLeft k).2
        (some fid) SlowType.CastRight k').1.actorStates fid
      = some { bowSlowActive := false, castLeftActive := true,
               castRightActive := true, dualCastActive := true }
    ∧ ((applySlowdown cfg (applySlowdown cfg mgr eng (some fid) SlowType.CastLeft k).1
        (applySlowdown cfg mgr eng (some fid) SlowType.CastLeft k).2
        (some fid) SlowType.CastRight k').2.activeEffects fid).head?
      = some (ds, calculateMagnitude cfg k' SlowType.DualCast))
  ∧ ((applySlowdown cfg (applySlowdown cfg mgr eng (some fid) SlowType.CastRight k).1
        (applySlowdown cfg mgr eng (some fid) SlowType.CastRight k).2
        (some fid) SlowType.CastLeft k').1.actorStates fid
      = some { bowSlowActive := false, castLeftActive := true,
               castRightActive := true, dualCastActive := true }
    ∧ ((applySlowdown cfg (applySlowdown cfg mgr eng (some fid) SlowType.CastRight k).1
        (applySlowdown cfg mgr eng (some fid) SlowType.CastRight k).2
        (some fid) SlowType.CastLeft k').2.activeEffects fid).head?
      = some (ds, calculateMagnitude cfg k' SlowType.DualCast))
  ∧ calculateMagnitude cfg k' SlowType.DualCast
      = 100 - cfg.dualCastMultipliers.get (tierOf k') * 100 := by
  refine ⟨⟨?_, ?_⟩, ⟨?_, ?_⟩, rfl⟩ <;>
    rcases hc : mgr.castingDebuffSpell with _ | c <;>
      simp [applySlowdown, requestSpell, applySetFlags, applySpellWithMagnitude,
        hfresh, hdual, hc, hcaster, Function.update_same]

/-- Witness for `c6_dualcast_symmetry` at a concrete input. -/
theorem c6_dualcast_symmetry_witness :
    (mgr0.actorStates 7 = none
     ∧ mgr0.dualCastDebuffSpell = some 3
     ∧ eng0.hasCaster 7 = true)
  ∧ (applySlowdown defaultConfig
        (applySlowdown defaultConfig mgr0 eng0 (some 7) SlowType.CastLeft 30).1
        (applySlowdown defaultConfig mgr0 eng0 (some 7) SlowType.CastLeft 30).2
        (some 7) SlowType.CastRight 80).1.actorStates 7
      = some { bowSlowActive := false, castLeftActive := true,
               castRightActive := true, dualCastActive := true } := by
  exact ⟨⟨rfl, rfl, rfl⟩,
    ((c6_dualcast_symmetry defaultConfig mgr0 eng0 7 3 30 80 rfl rfl rfl).1).1⟩

/-! ## Global mutation of the shared spell object -/

/-- Claim C10: `ApplySpellWithMagnitude` overwrites the magnitude of the
first effect of the shared spell object before casting; the spell store is
process-global, so the resulting store does not depend on which actor the
spell was applied to — applying a slowdown for one actor changes the stored
effect magnitude of the spell definition used for every other actor. -/
theorem c10_spell_mutation_is_global (eng : Engine) (a b sp : Nat) (mag : ℚ)
    (h : eng.spells sp ≠ []) :
    ((applySpellWithMagnitude eng (some a) (some sp) mag).spells sp).head? = some mag
  ∧ (applySpellWithMagnitude eng (some a) (some sp) mag).spells
      = (applySpellWithMagnitude eng (some b) (some sp) mag).spells := by
  constructor
  · rcases hl : eng.spells sp with _ | ⟨x, rest⟩
    · exact absurd hl h
    · simp only [applySpellWithMagnitude]
      split <;> simp [setFirstMagnitude, hl, Function.update_same]
  · simp only [applySpellWithMagnitude]
    split <;> split <;> rfl

/-- Witness for `c10_spell_mutation_is_global` at a concrete input. -/
theorem c10_spell_mutation_is_global_witness :
    eng0.spells 5 ≠ []
  ∧ (((applySpellWithMagnitude eng0 (some 1) (some 5) 33).spells 5).head? = some 33
     ∧ (applySpellWithMagnitude eng0 (some 1) (some 5) 33).spells
         = (applySpellWithMagnitude eng0 (some 2) (some 5) 33).spells) :=
  ⟨by simp [eng0], c10_spell_mutation_is_global eng0 1 2 5 33 (by simp [eng0])⟩

end SIGA
